import Mathlib

/-!
Verification development for the mux-sweeper capture and muxing core.

The definitions below are shallow embeddings of the C sources:
  * the Media Foundation muxer ("encoder"), from the module-level globals and
    functions in the encoder translation unit (src/unnamed/part_006, lines
    641-2239);
  * the capture orchestrator loop, from src/src/engine.c;
  * the screen frame copy, from the screen translation unit
    (src/src/main.c, function screen_get_frame_dual_track);
  * the audio silence synthesis, from src/src/filename.c
    (system_get_buffer) and src/unnamed/part_009 (microphone_get_buffer).

Machine-integer notes: the C counters are UINT64 and the sample times are
LONGLONG; every value written to them here is non-negative and far below
2^63, so they are modelled as Nat. GetTickCount times are DWORD; the code
only ever subtracts an earlier tick from a later one, which is modelled by
Nat subtraction under a monotonicity hypothesis. C integer division on
non-negative operands is Nat division. OS calls (Media Foundation, WASAPI,
DXGI) are modelled on their success paths; guard-clause rejections that the
C code reports with -1 are modelled with Option/Except.
-/

set_option linter.unusedVariables false

namespace MuxSweeper

/-! ## Muxer global state

From part_006 lines 641-662 (the static globals of the encoder unit) and the
encoder context structure in include/encoder.h. -/

/-- Sentinel (DWORD)-1 stored in g_audio_stream_index when no combined audio
stream is configured (part_006 line 877). -/
def NO_STREAM : Nat := 4294967295

/-- The module-level globals of the encoder unit (part_006 lines 641-656).
g_sink_writer is a pointer; only its nullness matters here. -/
structure EncoderGlobals where
  sinkWriter : Bool
  videoStreamIndex : Nat
  audioStreamIndex : Nat
  systemAudioStreamIndex : Nat
  micAudioStreamIndex : Nat
  dualTrackMode : Bool
  videoFrameCount : Nat
  audioSampleCount : Nat
  systemAudioSampleCount : Nat
  micAudioSampleCount : Nat
  videoWidth : Nat
  videoHeight : Nat
  videoFps : Nat
  audioSampleRate : Nat
  recordingStartTime : Nat
  lastVideoTimestamp : Nat
  deriving Repr, DecidableEq

/-- Zero-initialized state of the globals at process start: static
initializers from part_006 lines 641-656 (fps starts at 30, the stored audio
sample rate at 44100, everything else at 0 / NULL / FALSE). -/
def initialEncoderGlobals : EncoderGlobals :=
  { sinkWriter := false
    videoStreamIndex := 0
    audioStreamIndex := 0
    systemAudioStreamIndex := 0
    micAudioStreamIndex := 0
    dualTrackMode := false
    videoFrameCount := 0
    audioSampleCount := 0
    systemAudioSampleCount := 0
    micAudioSampleCount := 0
    videoWidth := 0
    videoHeight := 0
    videoFps := 30
    audioSampleRate := 44100
    recordingStartTime := 0
    lastVideoTimestamp := 0 }

/-- The fields of encoder_context_t that the embedded functions read. -/
structure EncoderContext where
  isRecording : Bool
  inputSampleRate : Nat
  inputChannels : Nat
  inputBitsPerSample : Nat
  dualTrackMode : Bool
  deriving Repr, DecidableEq

/-- One sample handed to IMFSinkWriter_WriteSample: target stream index plus
the time and duration set via IMFSample_SetSampleTime / SetSampleDuration,
in 100 ns ticks. -/
structure WrittenSample where
  stream : Nat
  sampleTime : Nat
  sampleDuration : Nat
  deriving Repr, DecidableEq

instance : Inhabited WrittenSample := ⟨⟨0, 0, 0⟩⟩

/-! ## Muxer ingestion

encoder_add_video_frame, part_006 lines 1684-1792. The guard (line 1688)
rejects a NULL context, a context that is not recording, NULL frame data, or
a NULL sink writer. On success the sample time is
g_video_frame_count * 10000000 / g_video_fps (line 1752), the duration is
10000000 / g_video_fps (line 1763), and g_video_frame_count is incremented
after the write (line 1779). The elapsed_ms argument is referenced only in a
DEBUG printf (line 1784) and never enters the computation.
g_last_video_timestamp is not written anywhere in this function (nor
anywhere else outside encoder_cleanup). -/

def encoder_add_video_frame (ctx : EncoderContext) (frameDataValid : Bool)
    (g : EncoderGlobals) (elapsed_ms : Nat) :
    Option (WrittenSample × EncoderGlobals) :=
  if ¬ctx.isRecording ∨ ¬frameDataValid ∨ ¬g.sinkWriter then none
  else
    let timestamp := g.videoFrameCount * 10000000 / g.videoFps
    let duration := 10000000 / g.videoFps
    some (⟨g.videoStreamIndex, timestamp, duration⟩,
          { g with videoFrameCount := g.videoFrameCount + 1 })

/-- The submissions made by a run of successive encoder_add_video_frame
calls, one per element of the elapsed_ms list, threading the globals. -/
def videoTrace (ctx : EncoderContext) (g : EncoderGlobals) :
    List Nat → List WrittenSample × EncoderGlobals
  | [] => ([], g)
  | e :: es =>
    match encoder_add_video_frame ctx true g e with
    | none => videoTrace ctx g es
    | some (s, g') =>
      let rest := videoTrace ctx g' es
      (s :: rest.1, rest.2)

/-- encoder_add_audio_frame, part_006 lines 1794-1911 (combined audio
stream). After the guard, an audio stream index equal to (DWORD)-1 means
video-only mode: the frame is silently ignored with result 0 (lines
1798-1801). Otherwise the sample time is
g_audio_sample_count * 10000000 / 44100 (line 1868, hard-coded output rate),
the counter then advances by num_frames (line 1877), and the duration is
num_frames * 10000000 / 44100 (line 1894). -/
def encoder_add_audio_frame (ctx : EncoderContext) (dataValid : Bool)
    (g : EncoderGlobals) (num_frames elapsed_ms : Nat) :
    Option (Option WrittenSample × EncoderGlobals) :=
  if ¬ctx.isRecording ∨ ¬dataValid ∨ ¬g.sinkWriter then none
  else if g.audioStreamIndex = NO_STREAM then some (none, g)
  else
    let timestamp := g.audioSampleCount * 10000000 / 44100
    let duration := num_frames * 10000000 / 44100
    some (some ⟨g.audioStreamIndex, timestamp, duration⟩,
          { g with audioSampleCount := g.audioSampleCount + num_frames })

/-- encoder_add_system_audio_frame, part_006 lines 1914-2015 (dual-track
system stream). Guard additionally requires g_dual_track_mode. Sample time:
g_system_audio_sample_count * 10000000 / 44100 (line 1979, hard-coded
44100); counter advances by num_frames (line 1989); duration:
num_frames * 10000000 / 44100 (line 1992). -/
def encoder_add_system_audio_frame (ctx : EncoderContext) (dataValid : Bool)
    (g : EncoderGlobals) (num_frames elapsed_ms : Nat) :
    Option (WrittenSample × EncoderGlobals) :=
  if ¬ctx.isRecording ∨ ¬dataValid ∨ ¬g.sinkWriter ∨ ¬g.dualTrackMode then none
  else
    let timestamp := g.systemAudioSampleCount * 10000000 / 44100
    let duration := num_frames * 10000000 / 44100
    some (⟨g.systemAudioStreamIndex, timestamp, duration⟩,
          { g with systemAudioSampleCount := g.systemAudioSampleCount + num_frames })

/-- encoder_add_mic_audio_frame, part_006 lines 2017-2117 (dual-track
microphone stream). Identical to the system variant with the mic counter and
stream index; the rate in the time and duration formulas is again the
literal 44100 (lines 2082, 2095). -/
def encoder_add_mic_audio_frame (ctx : EncoderContext) (dataValid : Bool)
    (g : EncoderGlobals) (num_frames elapsed_ms : Nat) :
    Option (WrittenSample × EncoderGlobals) :=
  if ¬ctx.isRecording ∨ ¬dataValid ∨ ¬g.sinkWriter ∨ ¬g.dualTrackMode then none
  else
    let timestamp := g.micAudioSampleCount * 10000000 / 44100
    let duration := num_frames * 10000000 / 44100
    some (⟨g.micAudioStreamIndex, timestamp, duration⟩,
          { g with micAudioSampleCount := g.micAudioSampleCount + num_frames })

/-! ## Muxer initialization variants

The sink writer assigns stream indices sequentially in the order of the
IMFSinkWriter_AddStream calls (0, 1, 2, ...). The attribute values written
on the output media types are taken verbatim from the SetUINT32 calls of
each init function. -/

/-- Attributes set on an AAC audio output media type. -/
structure AudioOutputType where
  samplesPerSecond : Nat
  numChannels : Nat
  bitsPerSample : Nat
  avgBitrate : Nat
  deriving Repr, DecidableEq

/-- Output type of the combined audio stream in encoder_init, part_006 lines
810-828: the sample rate is forced to 44100 (line 816, with the comment
Force standard audio sample rate) regardless of the source rate. -/
def combinedAudioOutputType (sample_rate channels : Nat) : AudioOutputType :=
  ⟨44100, channels, 16, 96000⟩

/-- Output type of the system track in encoder_init_dual_track, part_006
lines 1095-1117: the sample rate attribute is set to the SOURCE sample rate
(line 1104). -/
def dualTrackSystemOutputType (sample_rate channels : Nat) : AudioOutputType :=
  ⟨sample_rate, channels, 16, 96000⟩

/-- Output type of the mic track in encoder_init_dual_track, part_006 lines
1124-1146: sample rate attribute = source sample rate (line 1133). -/
def dualTrackMicOutputType (sample_rate channels : Nat) : AudioOutputType :=
  ⟨sample_rate, channels, 16, 96000⟩

/-- Output type of the single stream in encoder_init_audio_only, part_006
lines 1345-1365: sample rate attribute = source sample rate (line 1353). -/
def audioOnlyOutputType (sample_rate channels : Nat) : AudioOutputType :=
  ⟨sample_rate, channels, 16, 96000⟩

/-- Output type of the system track in encoder_init_audio_only_dual_track,
part_006 lines 1527-1545: sample rate attribute = source sample rate
(line 1532). -/
def audioOnlyDualSystemOutputType (sample_rate channels : Nat) : AudioOutputType :=
  ⟨sample_rate, channels, 16, 96000⟩

/-- Output type of the mic track in encoder_init_audio_only_dual_track,
part_006 lines 1554-1572: sample rate attribute = source sample rate
(line 1559). -/
def audioOnlyDualMicOutputType (sample_rate channels : Nat) : AudioOutputType :=
  ⟨sample_rate, channels, 16, 96000⟩

/-- encoder_init success path, part_006 lines 664-910: include_audio is
decided from the audio parameters (line 675); the video stream is added
first (index 0) and, when audio is included, the combined audio stream
second (index 1); without audio g_audio_stream_index is set to (DWORD)-1
(line 877). Lines 889-894 store width, height, fps and the source sample
rate in the globals and zero the video and audio counters. The context
becomes recording; its dual_track_mode stays FALSE (memset, line 668), and
g_dual_track_mode is not written by this function. -/
def encoder_init (g : EncoderGlobals) (width height fps sample_rate channels bits_per_sample : Nat) :
    EncoderGlobals × EncoderContext :=
  let include_audio : Bool := 0 < sample_rate ∧ 0 < channels ∧ 0 < bits_per_sample
  ({ g with
      sinkWriter := true
      videoStreamIndex := 0
      audioStreamIndex := if include_audio then 1 else NO_STREAM
      videoWidth := width
      videoHeight := height
      videoFps := fps
      audioSampleRate := sample_rate
      videoFrameCount := 0
      audioSampleCount := 0 },
   { isRecording := true
     inputSampleRate := sample_rate
     inputChannels := channels
     inputBitsPerSample := bits_per_sample
     dualTrackMode := false })

/-- encoder_init_dual_track success path, part_006 lines 927-1251: sets
g_dual_track_mode (line 940), zeroes the video, system and mic counters and
stores the geometry and fps (lines 958-964); adds the video stream (index
0), system audio stream (index 1) and mic audio stream (index 2); finally
stores the source sample rate in g_audio_sample_rate (line 1236). -/
def encoder_init_dual_track (g : EncoderGlobals) (width height fps sample_rate channels bits_per_sample : Nat) :
    EncoderGlobals × EncoderContext :=
  ({ g with
      sinkWriter := true
      dualTrackMode := true
      videoStreamIndex := 0
      systemAudioStreamIndex := 1
      micAudioStreamIndex := 2
      videoWidth := width
      videoHeight := height
      videoFps := fps
      audioSampleRate := sample_rate
      videoFrameCount := 0
      systemAudioSampleCount := 0
      micAudioSampleCount := 0 },
   { isRecording := true
     inputSampleRate := sample_rate
     inputChannels := channels
     inputBitsPerSample := bits_per_sample
     dualTrackMode := true })

/-- encoder_init_audio_only success path, part_006 lines 1269-1424: clears
g_dual_track_mode and zeroes the combined counter (lines 1280-1281); adds
the single audio stream (index 0); stores the source sample rate
(line 1413). -/
def encoder_init_audio_only (g : EncoderGlobals) (sample_rate channels bits_per_sample : Nat) :
    EncoderGlobals × EncoderContext :=
  ({ g with
      sinkWriter := true
      dualTrackMode := false
      audioSampleCount := 0
      audioStreamIndex := 0
      audioSampleRate := sample_rate },
   { isRecording := true
     inputSampleRate := sample_rate
     inputChannels := channels
     inputBitsPerSample := bits_per_sample
     dualTrackMode := false })

/-- encoder_init_audio_only_dual_track success path, part_006 lines
1440-1663: sets g_dual_track_mode and zeroes the system and mic counters
(lines 1451-1453); adds the system stream (index 0) and the mic stream
(index 1); stores the source sample rate (line 1654). -/
def encoder_init_audio_only_dual_track (g : EncoderGlobals) (sample_rate channels bits_per_sample : Nat) :
    EncoderGlobals × EncoderContext :=
  ({ g with
      sinkWriter := true
      dualTrackMode := true
      systemAudioSampleCount := 0
      micAudioSampleCount := 0
      systemAudioStreamIndex := 0
      micAudioStreamIndex := 1
      audioSampleRate := sample_rate },
   { isRecording := true
     inputSampleRate := sample_rate
     inputChannels := channels
     inputBitsPerSample := bits_per_sample
     dualTrackMode := true })

/-! ## Finalization and cleanup -/

/-- One IMFSinkWriter_SendStreamTick call: stream index and timestamp. -/
structure StreamTick where
  stream : Nat
  timestamp : Nat
  deriving Repr, DecidableEq

/-- The end-of-stream ticks sent by encoder_finalize, part_006 lines
2119-2200. Video (lines 2138-2144): sent when g_video_frame_count > 0, with
timestamp g_last_video_timestamp. Audio (lines 2147-2176): in dual-track
mode a tick per nonempty track with timestamp
count * 10000000 / g_audio_sample_rate (lines 2151, 2159); otherwise one
tick for the combined stream with timestamp
g_audio_sample_count * 10000000 / g_audio_sample_rate (line 2168). The
total_audio_samples > 0 outer condition (line 2147) sums all three
counters. -/
def encoder_finalize_ticks (g : EncoderGlobals) : List StreamTick :=
  let total_audio_samples :=
    g.audioSampleCount + g.systemAudioSampleCount + g.micAudioSampleCount
  (if 0 < g.videoFrameCount then
    [⟨g.videoStreamIndex, g.lastVideoTimestamp⟩] else []) ++
  (if 0 < total_audio_samples then
    (if g.dualTrackMode then
      (if 0 < g.systemAudioSampleCount then
        [⟨g.systemAudioStreamIndex,
          g.systemAudioSampleCount * 10000000 / g.audioSampleRate⟩] else []) ++
      (if 0 < g.micAudioSampleCount then
        [⟨g.micAudioStreamIndex,
          g.micAudioSampleCount * 10000000 / g.audioSampleRate⟩] else [])
    else
      (if 0 < g.audioSampleCount then
        [⟨g.audioStreamIndex,
          g.audioSampleCount * 10000000 / g.audioSampleRate⟩] else []))
   else [])

/-- State change of encoder_finalize on the globals and context: the
function flushes, sends the ticks of encoder_finalize_ticks, finalizes the
writer and sets context->is_recording = FALSE (line 2208); it does not write
any of the counters or indices. -/
def encoder_finalize (ctx : EncoderContext) (g : EncoderGlobals) :
    EncoderContext × EncoderGlobals :=
  ({ ctx with isRecording := false }, g)

/-- encoder_cleanup, part_006 lines 2203-2233: releases the sink writer and
resets the listed globals to their initial values (indices to 0, flags to
FALSE, counters to 0, geometry to 0, fps to 30, start time and last video
timestamp to 0). Note that g_audio_sample_rate is NOT in the reset list and
keeps its last value. The context is memset to zero. -/
def encoder_cleanup (g : EncoderGlobals) : EncoderGlobals :=
  { g with
      sinkWriter := false
      videoStreamIndex := 0
      audioStreamIndex := 0
      systemAudioStreamIndex := 0
      micAudioStreamIndex := 0
      dualTrackMode := false
      videoFrameCount := 0
      audioSampleCount := 0
      systemAudioSampleCount := 0
      micAudioSampleCount := 0
      videoWidth := 0
      videoHeight := 0
      videoFps := 30
      recordingStartTime := 0
      lastVideoTimestamp := 0 }

/-! ## Capture orchestrator (src/src/engine.c) -/

/-- Result of screen_get_frame_dual_track as seen by the engine loop: the
int return value together with whether frame_data was set non-NULL. The
function returns 0 with data on success (fresh or cached frame), 1 with no
data when the compositor reported wait-timeout and no cached frame exists
(main.c line 274, the NoNewFrame case), and -1 on errors. -/
inductive FrameFetch
  | frame
  | noNewFrame
  | err
  deriving Repr, DecidableEq

/-- The loop-local variables of the video path in engine_start. -/
structure VideoLoopState where
  frame_count : Nat
  failed_frame_attempts : Nat
  next_frame_time : Nat
  deriving Repr, DecidableEq

/-- The video path of one main-loop iteration, engine.c lines 343-361.
When not audio-only and current_time >= next_frame_time, the engine requests
a frame; on success (return 0 and non-NULL data) it pushes the frame to the
muxer, frees it and increments frame_count, otherwise it increments
failed_frame_attempts. In BOTH cases the line
next_frame_time += frame_interval (line 360) runs: it sits after the
if/else, inside the outer if. -/
def engine_video_path (audio_only_mode : Bool) (current_time frame_interval : Nat)
    (fetch : FrameFetch) (s : VideoLoopState) : VideoLoopState :=
  if ¬audio_only_mode ∧ s.next_frame_time ≤ current_time then
    let s' :=
      match fetch with
      | .frame => { s with frame_count := s.frame_count + 1 }
      | _ => { s with failed_frame_attempts := s.failed_frame_attempts + 1 }
    { s' with next_frame_time := s'.next_frame_time + frame_interval }
  else s

/-- The audio_source_type_t values of engine.h. -/
inductive AudioSources
  | none
  | system
  | microphone
  | both
  deriving Repr, DecidableEq

/-- The five muxer initialization variants the orchestrator can pick
(engine.c lines 229-251): encoder_init covers both video-only and
video+combined-audio depending on the audio parameters it receives. -/
inductive MuxerVariant
  | videoSingle
  | videoDualTrack
  | audioOnlySingle
  | audioOnlyDualTrack
  deriving Repr, DecidableEq

/-- engine.c line 79: dual-track is used only when both audio sources are
requested AND the recording is not audio-only (comment in the source: fix
container timescale issues). -/
def use_dual_track (audio_sources : AudioSources) (audio_only_mode : Bool) : Bool :=
  audio_sources = AudioSources.both ∧ ¬audio_only_mode

/-- The muxer variant selection of engine_start, engine.c lines 229-251:
in audio-only mode, encoder_init_audio_only_dual_track when
use_dual_track && audio_available, else encoder_init_audio_only; otherwise
encoder_init_dual_track when use_dual_track && audio_available, else
encoder_init. -/
def select_muxer_variant (audio_sources : AudioSources) (audio_only_mode audio_available : Bool) :
    MuxerVariant :=
  if audio_only_mode then
    if use_dual_track audio_sources audio_only_mode ∧ audio_available then
      .audioOnlyDualTrack
    else .audioOnlySingle
  else
    if use_dual_track audio_sources audio_only_mode ∧ audio_available then
      .videoDualTrack
    else .videoSingle

/-- The engine structure fields touched before and around the guard of
engine_start (engine.h / engine.c lines 57-63). -/
structure EngineState where
  is_running : Bool
  force_stop : Bool
  params_fps : Nat
  params_duration : Nat
  stats_total_frames : Nat
  stats_failed_frames : Nat
  deriving Repr, DecidableEq

/-- The module-level state engine_start can reach: the engine-unit static
contexts plus the encoder-unit globals. The capture contexts are abstracted
to the fields the claims mention. -/
structure ModuleState where
  encoderGlobals : EncoderGlobals
  screen_is_capturing : Bool
  mic_is_capturing : Bool
  system_is_capturing : Bool
  deriving Repr, DecidableEq

/-- Everything after the guard of engine_start, starting with the mutations
of lines 61-63 (copy the params, clear force_stop, zero the stats). The
recording itself is a long interaction with the OS; for the guard claim only
the fact that the state is entered and mutated matters, so the model stops
after the first mutations and reports success of the entry. -/
def engine_start_body (e : EngineState) (fps duration : Nat) (m : ModuleState) :
    Int × EngineState × ModuleState :=
  (0, { e with
          force_stop := false
          params_fps := fps
          params_duration := duration
          stats_total_frames := 0
          stats_failed_frames := 0 }, m)

/-- engine_start entry, engine.c line 58: a NULL engine, a NULL params
pointer, or an is_running engine is rejected with -1 before any assignment
to the engine structure or to any module state. The two pointers are
modelled by Option; the params by the fields the guard path can see. -/
def engine_start_entry (engine : Option EngineState) (params : Option (Nat × Nat))
    (m : ModuleState) : Int × Option EngineState × ModuleState :=
  match engine, params with
  | none, _ => (-1, engine, m)
  | some _, none => (-1, engine, m)
  | some e, some (fps, duration) =>
    if e.is_running then (-1, some e, m)
    else
      let r := engine_start_body e fps duration m
      (r.1, some r.2.1, r.2.2)

/-- The successful teardown of engine_start, engine.c lines 450-483: stop
the captures, call encoder_finalize, set is_running = FALSE, return 0.
encoder_cleanup is NOT called on this path (it runs only on the goto
cleanup error path, line 504, or later in engine_cleanup), so the encoder
globals keep the values the recording left in them. -/
def engine_start_success_teardown (ctx : EncoderContext) (m : ModuleState) :
    EncoderContext × ModuleState :=
  let m' := { m with
      screen_is_capturing := false
      mic_is_capturing := false
      system_is_capturing := false }
  let fin := encoder_finalize ctx m'.encoderGlobals
  (fin.1, { m' with encoderGlobals := fin.2 })

/-! ## Screen frame copy (screen_get_frame_dual_track, main.c lines 244-387)

The mapped staging texture is a byte array addressed as
src_row * RowPitch + i; the destination buffer is width * height * 4 bytes
addressed as y * width * 4 + i. The copy loops (lines 342-357) copy
width * 4 bytes per output row y, from input row y in dual-track mode and
from input row height - 1 - y otherwise. The source bytes are modelled as a
function from byte address to byte value. -/

/-- One memcpy of len bytes starting at byte offset srcOff of the source. -/
def memcpyBytes (src : Nat → Nat) (srcOff len : Nat) : List Nat :=
  (List.range len).map fun i => src (srcOff + i)

/-- The destination buffer built by the row-copy loops, as a list of rows of
width * 4 bytes each (main.c lines 342-357). -/
def screen_copy_rows (dual_track_mode : Bool) (width height rowPitch : Nat)
    (src : Nat → Nat) : List (List Nat) :=
  (List.range height).map fun y =>
    let src_row := if dual_track_mode then y else height - 1 - y
    memcpyBytes src (src_row * rowPitch) (width * 4)

/-! ## Audio silence synthesis

system_get_buffer, src/src/filename.c lines 183-296, and
microphone_get_buffer, src/unnamed/part_009 lines 164-268. The zero-packet
branch keeps its state in function-static variables; the system variant also
keeps a call counter that only feeds a rate-limited printf and is omitted
here. -/

/-- The function-static state of the silence synthesis inside get_buffer. -/
structure SilenceState where
  silent_buffer_size : Nat
  recording_start_time : Nat
  total_generated_samples : Nat
  deriving Repr, DecidableEq

/-- Static initializers of the silence state (all zero). -/
def initialSilenceState : SilenceState := ⟨0, 0, 0⟩

/-- Outcome of one get_buffer call. err models the -1 returns; idle models
return 0 with NULL data and zero frames; silent is a synthesized buffer of
the given frame count; real is a mapped OS packet of the given frame
count. -/
inductive AudioBufferResult
  | err
  | idle
  | silent (frames : Nat)
  | real (frames : Nat)
  deriving Repr, DecidableEq

/-- system_get_buffer (filename.c lines 183-296). Arguments: is_capturing
from the context, the next packet size reported by the OS ring, the mix
format sample rate and block alignment, the current GetTickCount value, the
silence statics and the current ctx->using_silent_buffer flag. Returns the
result, the new statics and the new flag.

Zero-packet branch (lines 199-273): when recording_start_time is still 0 it
is latched to now and total_generated_samples is zeroed (lines 213-217);
expected_total_samples = rate * (now - start) / 1000 (line 222); if
total_generated_samples has caught up, return idle with no state change
(lines 225-229); otherwise emit
min(expected - total, rate * 50 / 1000) zero frames from the static buffer,
growing it exactly to the needed byte count when it is smaller (lines
249-260), set using_silent_buffer and advance the counter (lines 265-270).
Nonzero packet (lines 275-295): clear using_silent_buffer and map the
packet. microphone_get_buffer (part_009 lines 164-268) is the same
procedure. -/
def system_get_buffer (is_capturing : Bool) (packetFrames rate blockAlign now : Nat)
    (s : SilenceState) (using_silent : Bool) :
    AudioBufferResult × SilenceState × Bool :=
  if ¬is_capturing then (.err, s, using_silent)
  else if packetFrames = 0 then
    let s1 := if s.recording_start_time = 0 then
        { s with recording_start_time := now, total_generated_samples := 0 }
      else s
    let recording_elapsed_ms := now - s1.recording_start_time
    let expected_total_samples := rate * recording_elapsed_ms / 1000
    if expected_total_samples ≤ s1.total_generated_samples then
      (.idle, s1, using_silent)
    else
      let samples_needed := expected_total_samples - s1.total_generated_samples
      let max_chunk_samples := rate * 50 / 1000
      let frames_to_generate := min samples_needed max_chunk_samples
      let bytes_needed := frames_to_generate * blockAlign
      let s2 := { s1 with
          silent_buffer_size := max s1.silent_buffer_size bytes_needed
          total_generated_samples := s1.total_generated_samples + frames_to_generate }
      (.silent frames_to_generate, s2, true)
  else (.real packetFrames, s, false)

/-- microphone_get_buffer (part_009 lines 164-268): textually the same
zero-packet policy as system_get_buffer with its own statics. -/
def microphone_get_buffer (is_capturing : Bool) (packetFrames rate blockAlign now : Nat)
    (s : SilenceState) (using_silent : Bool) :
    AudioBufferResult × SilenceState × Bool :=
  if ¬is_capturing then (.err, s, using_silent)
  else if packetFrames = 0 then
    let s1 := if s.recording_start_time = 0 then
        { s with recording_start_time := now, total_generated_samples := 0 }
      else s
    let recording_elapsed_ms := now - s1.recording_start_time
    let expected_total_samples := rate * recording_elapsed_ms / 1000
    if expected_total_samples ≤ s1.total_generated_samples then
      (.idle, s1, using_silent)
    else
      let samples_needed := expected_total_samples - s1.total_generated_samples
      let max_chunk_samples := rate * 50 / 1000
      let frames_to_generate := min samples_needed max_chunk_samples
      let bytes_needed := frames_to_generate * blockAlign
      let s2 := { s1 with
          silent_buffer_size := max s1.silent_buffer_size bytes_needed
          total_generated_samples := s1.total_generated_samples + frames_to_generate }
      (.silent frames_to_generate, s2, true)
  else (.real packetFrames, s, false)

/-- system_release_buffer (filename.c lines 298-309) and
microphone_release_buffer (part_009 lines 270-281): the OS ReleaseBuffer
call happens only when ctx->using_silent_buffer is FALSE. Modelled as the
count of ReleaseBuffer calls issued. -/
def audio_release_buffer (using_silent : Bool) (osReleaseCalls : Nat) : Nat :=
  if ¬using_silent then osReleaseCalls + 1 else osReleaseCalls

/-- The context fields of an audio source the silence claims mention. -/
structure AudioSourceCtx where
  is_capturing : Bool
  using_silent_buffer : Bool
  deriving Repr, DecidableEq

/-- An audio source module: the context structure plus the function-static
silence state of its get_buffer. -/
structure AudioSourceModule where
  ctx : AudioSourceCtx
  silence : SilenceState
  deriving Repr, DecidableEq

/-- system_stop_capture (filename.c lines 311-321) / microphone_stop_capture
(part_009 lines 283-293): stops the OS client and clears is_capturing; the
function-static silence state is not touched. -/
def audio_stop_capture (m : AudioSourceModule) : AudioSourceModule :=
  { m with ctx := { m.ctx with is_capturing := false } }

/-- system_cleanup (filename.c lines 323-353) / microphone_cleanup (part_009
lines 295-325): releases the COM handles and memsets the context structure
to zero; the function-static silence state is not touched. -/
def audio_cleanup (m : AudioSourceModule) : AudioSourceModule :=
  { m with ctx := { is_capturing := false, using_silent_buffer := false } }

/-! ## Derived states and predicates used by the theorems -/

instance : Inhabited EncoderGlobals := ⟨initialEncoderGlobals⟩

/-- Encoder globals after a video-only recording at 30 fps that submitted
exactly one frame: encoder_init (no audio parameters) followed by one
successful encoder_add_video_frame. -/
def videoOnlyOneFrameGlobals : EncoderGlobals :=
  let init := encoder_init initialEncoderGlobals 1920 1080 30 0 0 0
  match encoder_add_video_frame init.2 true init.1 33 with
  | some (_, g) => g
  | none => init.1

/-- Encoder globals after a dual-track recording at source rate 48000 in
which one system-audio buffer of 48000 frames was submitted. -/
def dualTrackOneBufferGlobals : EncoderGlobals :=
  let init := encoder_init_dual_track initialEncoderGlobals 1920 1080 30 48000 2 32
  match encoder_add_system_audio_frame init.2 true init.1 48000 0 with
  | some (_, g) => g
  | none => init.1

/-- The module state after the successful engine_start teardown of a
video-only one-frame recording (engine.c lines 450-483 run encoder_finalize
but not encoder_cleanup). -/
def videoOnlyRunFinalState : ModuleState :=
  (engine_start_success_teardown
    (encoder_init initialEncoderGlobals 1920 1080 30 0 0 0).2
    { encoderGlobals := videoOnlyOneFrameGlobals
      screen_is_capturing := true
      mic_is_capturing := false
      system_is_capturing := false }).2

/-- The process-wide muxer globals listed by the reset claim, each at its
zero / initial value (the value encoder_cleanup writes and the value of the
static initializer). -/
def muxerGlobalsAtInitial (g : EncoderGlobals) : Prop :=
  g.videoStreamIndex = 0 ∧ g.audioStreamIndex = 0 ∧
  g.systemAudioStreamIndex = 0 ∧ g.micAudioStreamIndex = 0 ∧
  g.dualTrackMode = false ∧ g.videoFrameCount = 0 ∧
  g.audioSampleCount = 0 ∧ g.systemAudioSampleCount = 0 ∧
  g.micAudioSampleCount = 0 ∧ g.videoWidth = 0 ∧ g.videoHeight = 0 ∧
  g.videoFps = 30 ∧ g.recordingStartTime = 0 ∧ g.lastVideoTimestamp = 0 ∧
  g.sinkWriter = false

instance (g : EncoderGlobals) : Decidable (muxerGlobalsAtInitial g) := by
  unfold muxerGlobalsAtInitial; infer_instance

/-- The silence synthesis contract of one zero-packet get_buffer call on a
capturing source: the first such call (static start time still 0) latches
the start time and zeroes the counter, which makes it report idle; a later
call computes expected = rate * (now - start) / 1000 and reports idle with
no state change when the counter has caught up, and otherwise emits exactly
min(expected - total, rate * 50 / 1000) zero frames, grows the static
buffer to the needed byte count, advances the counter by the emitted frame
count and sets the synthesized flag; the microphone source follows the
identical procedure; releasing a synthesized buffer performs no OS release
call. -/
def SilencePolicy (rate blockAlign now : Nat) (s : SilenceState) (u : Bool) : Prop :=
  (s.recording_start_time = 0 →
    system_get_buffer true 0 rate blockAlign now s u
      = (.idle, { s with recording_start_time := now, total_generated_samples := 0 }, u)) ∧
  (s.recording_start_time ≠ 0 →
    (rate * (now - s.recording_start_time) / 1000 ≤ s.total_generated_samples →
      system_get_buffer true 0 rate blockAlign now s u = (.idle, s, u)) ∧
    (s.total_generated_samples < rate * (now - s.recording_start_time) / 1000 →
      system_get_buffer true 0 rate blockAlign now s u
        = (.silent (min (rate * (now - s.recording_start_time) / 1000
              - s.total_generated_samples) (rate * 50 / 1000)),
           { s with
              silent_buffer_size := max s.silent_buffer_size
                ((min (rate * (now - s.recording_start_time) / 1000
                  - s.total_generated_samples) (rate * 50 / 1000)) * blockAlign)
              total_generated_samples := s.total_generated_samples
                + min (rate * (now - s.recording_start_time) / 1000
                  - s.total_generated_samples) (rate * 50 / 1000) },
           true))) ∧
  (∀ cap pf r ba n st us,
    microphone_get_buffer cap pf r ba n st us = system_get_buffer cap pf r ba n st us) ∧
  (∀ k, audio_release_buffer true k = k)

/-- Persistence of the silence statics across recordings: the first idle
call at time t1 latches t1; neither stop_capture nor cleanup touches the
statics; a later idle call at time t2 (for example during a second
recording in the same process) computes its expected sample count from the
latched t1, not from the start of the current recording. -/
def SilenceStatePersists (rate blockAlign t1 t2 : Nat) (c : AudioSourceCtx) : Prop :=
  (system_get_buffer true 0 rate blockAlign t1 initialSilenceState
      c.using_silent_buffer).2.1 = ⟨0, t1, 0⟩ ∧
  (audio_stop_capture ⟨c, ⟨0, t1, 0⟩⟩).silence = ⟨0, t1, 0⟩ ∧
  (audio_cleanup (audio_stop_capture ⟨c, ⟨0, t1, 0⟩⟩)).silence = ⟨0, t1, 0⟩ ∧
  (system_get_buffer true 0 rate blockAlign t2 ⟨0, t1, 0⟩ false
    = if rate * (t2 - t1) / 1000 = 0 then (.idle, ⟨0, t1, 0⟩, false)
      else (.silent (min (rate * (t2 - t1) / 1000) (rate * 50 / 1000)),
            ⟨min (rate * (t2 - t1) / 1000) (rate * 50 / 1000) * blockAlign, t1,
             min (rate * (t2 - t1) / 1000) (rate * 50 / 1000)⟩, true)) ∧
  microphone_get_buffer true 0 rate blockAlign t2 ⟨0, t1, 0⟩ false
    = system_get_buffer true 0 rate blockAlign t2 ⟨0, t1, 0⟩ false

/-! ## Theorems -/

/-- Auxiliary: shape of a run of successful encoder_add_video_frame calls.
For every position k of the run, the sample time is
(initial count + k) * 10000000 / fps and the duration 10000000 / fps, and
the counter ends at initial count + run length. -/
theorem videoTrace_spec (ctx : EncoderContext) (hrec : ctx.isRecording = true) :
    ∀ (es : List Nat) (g : EncoderGlobals), g.sinkWriter = true →
      (videoTrace ctx g es).1.length = es.length ∧
      (videoTrace ctx g es).2.videoFrameCount = g.videoFrameCount + es.length ∧
      ∀ k, k < es.length →
        ((videoTrace ctx g es).1.getD k default).sampleTime
            = (g.videoFrameCount + k) * 10000000 / g.videoFps ∧
        ((videoTrace ctx g es).1.getD k default).sampleDuration
            = 10000000 / g.videoFps := by
  intro es
  induction es with
  | nil => intro g hg; simp [videoTrace]
  | cons e es ih =>
    intro g hg
    have hstep : encoder_add_video_frame ctx true g e
        = some (⟨g.videoStreamIndex, g.videoFrameCount * 10000000 / g.videoFps,
                 10000000 / g.videoFps⟩,
                { g with videoFrameCount := g.videoFrameCount + 1 }) := by
      simp [encoder_add_video_frame, hrec, hg]
    obtain ⟨ihlen, ihcount, ihnth⟩ :=
      ih { g with videoFrameCount := g.videoFrameCount + 1 } hg
    refine ⟨?_, ?_, ?_⟩
    · simp only [videoTrace, hstep, List.length_cons]
      omega
    · simp only [videoTrace, hstep]
      rw [ihcount]
      simp only [List.length_cons]
      omega
    · intro k hk
      match k with
      | 0 => simp [videoTrace, hstep]
      | k + 1 =>
        have hk' : k < es.length := by simpa using hk
        have := ihnth k hk'
        simp only [videoTrace, hstep, List.getD_cons_succ] at this ⊢
        refine ⟨?_, this.2⟩
        rw [this.1]
        ring_nf

/-- C1: for a recording with target frame rate F, 1 ≤ F ≤ 120, starting
from a freshly opened muxer (video counter 0) and any sequence of
elapsed_ms arguments, the N-th submitted video sample carries time
(N - 1) * 10000000 / F ticks and duration 10000000 / F ticks, the counter
advances by exactly one per submission (ending at the number of
submissions), and the elapsed_ms argument never changes the result of a
submission. -/
theorem video_timestamp_formula (F N : Nat) (hF1 : 1 ≤ F) (hF2 : F ≤ 120)
    (ctx : EncoderContext) (hrec : ctx.isRecording = true)
    (g0 : EncoderGlobals) (hsink : g0.sinkWriter = true)
    (hcount : g0.videoFrameCount = 0) (hfps : g0.videoFps = F)
    (es : List Nat) (hN : 1 ≤ N) (hlen : N ≤ es.length) :
    ((videoTrace ctx g0 es).1.getD (N - 1) default).sampleTime
        = (N - 1) * 10000000 / F ∧
    ((videoTrace ctx g0 es).1.getD (N - 1) default).sampleDuration
        = 10000000 / F ∧
    (videoTrace ctx g0 es).2.videoFrameCount = es.length ∧
    (∀ (g : EncoderGlobals) (e e' : Nat),
      encoder_add_video_frame ctx true g e = encoder_add_video_frame ctx true g e') ∧
    (∀ (g : EncoderGlobals) (e : Nat) (r : WrittenSample × EncoderGlobals),
      encoder_add_video_frame ctx true g e = some r →
        r.2.videoFrameCount = g.videoFrameCount + 1) := by
  obtain ⟨hl, hc, hnth⟩ := videoTrace_spec ctx hrec es g0 hsink
  have hidx : N - 1 < es.length := by omega
  obtain ⟨ht, hd⟩ := hnth (N - 1) hidx
  refine ⟨?_, ?_, ?_, ?_, ?_⟩
  · rw [ht, hcount, hfps, Nat.zero_add]
  · rw [hd, hfps]
  · rw [hc, hcount]; omega
  · intro g e e'
    simp [encoder_add_video_frame]
  · intro g e r hr
    unfold encoder_add_video_frame at hr
    split at hr
    · exact Option.noConfusion hr
    · injection hr with h
      subst h
      rfl

/-- Witness for C1 at F = 30, N = 2, a fresh video-only muxer and a
two-submission run. -/
theorem video_timestamp_formula_witness :
    (1 ≤ 30 ∧ 30 ≤ 120 ∧
      (encoder_init initialEncoderGlobals 1920 1080 30 0 0 0).2.isRecording = true ∧
      (encoder_init initialEncoderGlobals 1920 1080 30 0 0 0).1.sinkWriter = true ∧
      (encoder_init initialEncoderGlobals 1920 1080 30 0 0 0).1.videoFrameCount = 0 ∧
      (encoder_init initialEncoderGlobals 1920 1080 30 0 0 0).1.videoFps = 30 ∧
      1 ≤ 2 ∧ 2 ≤ [33, 66].length) ∧
    ((videoTrace (encoder_init initialEncoderGlobals 1920 1080 30 0 0 0).2
        (encoder_init initialEncoderGlobals 1920 1080 30 0 0 0).1 [33, 66]).1.getD
          (2 - 1) default).sampleTime = (2 - 1) * 10000000 / 30 :=
  ⟨⟨by decide, by decide, by decide, by decide, by decide, by decide, by decide, by decide⟩,
   (video_timestamp_formula 30 2 (by decide) (by decide)
      (encoder_init initialEncoderGlobals 1920 1080 30 0 0 0).2 (by decide)
      (encoder_init initialEncoderGlobals 1920 1080 30 0 0 0).1 (by decide)
      (by decide) (by decide) [33, 66] (by decide) (by decide)).1⟩

/-- C3 fails on the code: in engine.c lines 343-361 the statement
next_frame_time += frame_interval sits after the success/failure if/else and
runs on the failure path too. Concretely, at current_time 100 with
next_frame_time 100 and frame interval 33, a NoNewFrame iteration leaves
frame_count at 0, increments failed_frame_attempts, and advances
next_frame_time to 133 instead of leaving it at 100. -/
theorem frame_clock_no_new_frame_cex :
    engine_video_path false 100 33 FrameFetch.noNewFrame ⟨0, 0, 100⟩
        = ⟨0, 1, 133⟩ ∧ (133 : Nat) ≠ 100 := by
  decide

/-- C3 amended: when a due iteration gets NoNewFrame, failed_frame_attempts
is incremented, frame_count is unchanged, and next_frame_time STILL advances
by the frame interval (the frame clock advances on every due iteration
regardless of success, so the engine does not retry the same frame slot). -/
theorem frame_clock_no_new_frame (current_time frame_interval : Nat)
    (s : VideoLoopState) (hdue : s.next_frame_time ≤ current_time) :
    engine_video_path false current_time frame_interval FrameFetch.noNewFrame s
      = { s with failed_frame_attempts := s.failed_frame_attempts + 1
                 next_frame_time := s.next_frame_time + frame_interval } := by
  simp [engine_video_path, hdue]

/-- Witness for the amended C3 at a due iteration. -/
theorem frame_clock_no_new_frame_witness :
    ((⟨5, 2, 100⟩ : VideoLoopState).next_frame_time ≤ 130) ∧
    engine_video_path false 130 33 FrameFetch.noNewFrame ⟨5, 2, 100⟩
      = ⟨5, 3, 133⟩ :=
  ⟨by decide, frame_clock_no_new_frame 130 33 ⟨5, 2, 100⟩ (by decide)⟩

/-- C7 fails on the code: engine.c line 79 clears use_dual_track whenever
audio_only_mode is set (source comment: disable dual-track mode for
audio-only recordings to fix container timescale issues), so a parameter set
with video disabled and BOTH audio sources enabled reaches
encoder_init_audio_only, the single-track audio-only variant, not the
dual-track one. -/
theorem audio_only_both_variant_cex :
    select_muxer_variant AudioSources.both true true = MuxerVariant.audioOnlySingle ∧
    MuxerVariant.audioOnlySingle ≠ MuxerVariant.audioOnlyDualTrack := by
  decide

/-- C7 amended: with video disabled and both audio sources enabled the
orchestrator always selects the single-track audio-only muxer variant
(dual-track is explicitly disabled in audio-only mode), whatever the audio
probe produced. -/
theorem audio_only_both_selects_single (audio_available : Bool) :
    select_muxer_variant AudioSources.both true audio_available
      = MuxerVariant.audioOnlySingle := by
  cases audio_available <;> decide

/-- C2 fails on the code (code bug): the dual-track init functions declare
the SOURCE sample rate on each output media type (part_006 lines 1104, 1133,
1532, 1559), but encoder_add_system_audio_frame and
encoder_add_mic_audio_frame stamp time and duration with the hard-coded
literal 44100 (lines 1979, 1992, 2082, 2095) under a comment claiming the
output rate is 44100; encoder_finalize meanwhile stamps the same streams
with g_audio_sample_rate. At source rate 48000, a 48000-frame buffer is
stamped with duration 48000 * 10000000 / 44100 = 10884353 ticks, whereas
the declared output rate yields 10000000 ticks, and the next sample on the
stream gets time 10884353 instead of 10000000. -/
theorem dual_track_audio_rate_divergence :
    (dualTrackSystemOutputType 48000 2).samplesPerSecond = 48000 ∧
    (Option.map (fun p => p.1.sampleDuration)
      (encoder_add_system_audio_frame
        (encoder_init_dual_track initialEncoderGlobals 1920 1080 30 48000 2 32).2 true
        (encoder_init_dual_track initialEncoderGlobals 1920 1080 30 48000 2 32).1
        48000 0)).getD 0 = 10884353 ∧
    (Option.map (fun p => p.1.sampleTime)
      (encoder_add_system_audio_frame
        (encoder_init_dual_track initialEncoderGlobals 1920 1080 30 48000 2 32).2 true
        dualTrackOneBufferGlobals 48000 1000)).getD 0 = 10884353 ∧
    (Option.map (fun p => p.1.sampleDuration)
      (encoder_add_system_audio_frame
        (encoder_init_audio_only_dual_track initialEncoderGlobals 48000 2 32).2 true
        (encoder_init_audio_only_dual_track initialEncoderGlobals 48000 2 32).1
        48000 0)).getD 0 = 10884353 ∧
    (audioOnlyDualSystemOutputType 48000 2).samplesPerSecond = 48000 ∧
    (Option.map (fun p => p.1.sampleDuration)
      (encoder_add_mic_audio_frame
        (encoder_init_dual_track initialEncoderGlobals 1920 1080 30 48000 2 32).2 true
        (encoder_init_dual_track initialEncoderGlobals 1920 1080 30 48000 2 32).1
        48000 0)).getD 0 = 10884353 ∧
    48000 * 10000000 / (dualTrackSystemOutputType 48000 2).samplesPerSecond
      = 10000000 ∧
    (10884353 : Nat) ≠ 10000000 := by
  decide

/-- C4 fails on the code (code bug). Video: the end-of-stream tick is sent
with g_last_video_timestamp (part_006 line 2140), a variable declared to
track the last video timestamp (line 656) but never written by
encoder_add_video_frame or anyone else outside encoder_cleanup, so it is
always 0; after one frame at 30 fps the final sample-clock position is
1 * 10000000 / 30 = 333333 ticks, yet the tick carries 0. Audio: the ticks
use g_audio_sample_rate, the SOURCE rate (lines 2151, 2159, 2168), while
the submissions used 44100, so at source rate 48000 the dual-track tick
(10000000 ticks after 48000 frames) also differs from the submission-clock
position (10884353 ticks). -/
theorem eos_tick_divergence :
    videoOnlyOneFrameGlobals.videoFrameCount = 1 ∧
    encoder_finalize_ticks videoOnlyOneFrameGlobals = [⟨0, 0⟩] ∧
    videoOnlyOneFrameGlobals.videoFrameCount * 10000000
        / videoOnlyOneFrameGlobals.videoFps = 333333 ∧
    (0 : Nat) ≠ 333333 ∧
    encoder_finalize_ticks dualTrackOneBufferGlobals = [⟨1, 10000000⟩] ∧
    dualTrackOneBufferGlobals.systemAudioSampleCount * 10000000 / 44100
      = 10884353 ∧
    (10000000 : Nat) ≠ 10884353 := by
  decide

/-- Auxiliary: byte i of a memcpy of len bytes from offset off. -/
theorem memcpyBytes_getD (src : Nat → Nat) (off len i : Nat) (hi : i < len) :
    (memcpyBytes src off len).getD i 0 = src (off + i) := by
  rw [List.getD_eq_getElem _ _ (by simpa [memcpyBytes] using hi)]
  simp [memcpyBytes]

/-- Auxiliary: row y of the copied frame is the memcpy of the selected
input row. -/
theorem screen_copy_rows_getD (dual_track_mode : Bool) (width height rowPitch y : Nat)
    (hy : y < height) (src : Nat → Nat) :
    (screen_copy_rows dual_track_mode width height rowPitch src).getD y []
      = memcpyBytes src ((if dual_track_mode then y else height - 1 - y) * rowPitch)
          (width * 4) := by
  rw [List.getD_eq_getElem _ _ (by simpa [screen_copy_rows] using hy)]
  simp [screen_copy_rows]

/-- C6: for every row y of the destination buffer and byte i within the
row, the copy loops of screen_get_frame_dual_track write the byte from
input row y when dual_track is true and from input row height - 1 - y when
it is false, and the destination holds exactly height rows. -/
theorem screen_row_order (dual_track_mode : Bool) (width height rowPitch y i : Nat)
    (hy : y < height) (hi : i < width * 4) (src : Nat → Nat) :
    (screen_copy_rows dual_track_mode width height rowPitch src).length = height ∧
    ((screen_copy_rows dual_track_mode width height rowPitch src).getD y []).getD i 0
      = src ((if dual_track_mode then y else height - 1 - y) * rowPitch + i) := by
  constructor
  · simp [screen_copy_rows]
  · rw [screen_copy_rows_getD dual_track_mode width height rowPitch y hy src,
        memcpyBytes_getD src _ _ i hi]

/-- Witness for C6 at a 2 x 2 frame, both copy directions exercised via the
false (flipping) mode at row 0, byte 1. -/
theorem screen_row_order_witness :
    ((0 : Nat) < 2 ∧ (1 : Nat) < 2 * 4) ∧
    ((screen_copy_rows false 2 2 16 (fun a => a)).getD 0 []).getD 1 0
      = (if false then (0 : Nat) else 2 - 1 - 0) * 16 + 1 :=
  ⟨⟨by decide, by decide⟩,
   (screen_row_order false 2 2 16 0 1 (by decide) (by decide) (fun a => a)).2⟩

/-- C8 fails on the code: the successful teardown of engine_start (engine.c
lines 450-483) stops the captures and calls encoder_finalize but never
encoder_cleanup (which runs only on the error path, line 504, or in the
separate engine_cleanup the caller may invoke later). After a successful
video-only run that submitted one frame, the muxer globals still hold the
recording values at return: the frame counter reads 1, width 1920, the sink
writer is still held. -/
theorem muxer_globals_after_run_cex :
    ¬ muxerGlobalsAtInitial videoOnlyRunFinalState.encoderGlobals ∧
    videoOnlyRunFinalState.encoderGlobals.videoFrameCount = 1 ∧
    videoOnlyRunFinalState.encoderGlobals.videoWidth = 1920 ∧
    videoOnlyRunFinalState.encoderGlobals.sinkWriter = true := by
  decide

/-- C8 amended: the muxer globals are reset to their zero / initial values
by encoder_cleanup (reached on the engine_start error path and through the
engine_cleanup the caller invokes after a run), not by the successful return
of the run itself: after encoder_cleanup every listed global holds its
initial value, whatever the recording left behind. -/
theorem muxer_globals_reset_by_cleanup (g : EncoderGlobals) :
    muxerGlobalsAtInitial (encoder_cleanup g) :=
  ⟨rfl, rfl, rfl, rfl, rfl, rfl, rfl, rfl, rfl, rfl, rfl, rfl, rfl, rfl, rfl⟩

/-- C9: the guard at engine.c line 58 rejects a NULL engine pointer, a NULL
params pointer, or an engine whose is_running flag is already set, with -1,
before any assignment: the engine structure and the module-level capture and
muxer state are returned unchanged. -/
theorem engine_start_guard (engine : Option EngineState)
    (params : Option (Nat × Nat)) (m : ModuleState)
    (h : engine = none ∨ params = none ∨
      ∃ e, engine = some e ∧ e.is_running = true) :
    engine_start_entry engine params m = (-1, engine, m) := by
  rcases h with h | h | ⟨e, he, hrun⟩
  · subst h; rfl
  · subst h
    cases engine with
    | none => rfl
    | some e => rfl
  · subst he
    cases params with
    | none => rfl
    | some p => simp [engine_start_entry, hrun]

/-- Witness for C9: a running engine is rejected and nothing changes. -/
theorem engine_start_guard_witness :
    ((some ⟨true, false, 30, 0, 0, 0⟩ : Option EngineState) = none ∨
      (some (60, 5) : Option (Nat × Nat)) = none ∨
      ∃ e, (some ⟨true, false, 30, 0, 0, 0⟩ : Option EngineState) = some e ∧
        e.is_running = true) ∧
    engine_start_entry (some ⟨true, false, 30, 0, 0, 0⟩) (some (60, 5))
        ⟨initialEncoderGlobals, false, false, false⟩
      = (-1, some ⟨true, false, 30, 0, 0, 0⟩,
         ⟨initialEncoderGlobals, false, false, false⟩) :=
  ⟨Or.inr (Or.inr ⟨⟨true, false, 30, 0, 0, 0⟩, rfl, rfl⟩),
   engine_start_guard (some ⟨true, false, 30, 0, 0, 0⟩) (some (60, 5))
     ⟨initialEncoderGlobals, false, false, false⟩
     (Or.inr (Or.inr ⟨⟨true, false, 30, 0, 0, 0⟩, rfl, rfl⟩))⟩

/-- C5: for both audio sources, a zero-size next packet triggers the
silence synthesis policy of SilencePolicy: first-call latch of the start
time with a zeroed counter, expected = sample_rate * (now - start) / 1000
on every call, idle with no advance when the counter has caught up, and
otherwise exactly min(expected - total, sample_rate * 50 / 1000) zero
frames from the static buffer, counter advanced by that amount, buffer
marked synthesized so that release performs no OS release. The monotonicity
hypothesis reflects that GetTickCount does not run backwards between the
latch and the call. -/
theorem silence_synthesis_policy (rate blockAlign now : Nat) (s : SilenceState)
    (u : Bool) (hmono : s.recording_start_time ≤ now) :
    SilencePolicy rate blockAlign now s u := by
  unfold SilencePolicy
  refine ⟨?_, ?_, ?_, ?_⟩
  · intro h0
    simp [system_get_buffer, h0]
  · intro hne
    constructor
    · intro hle
      simp [system_get_buffer, hne, hle]
    · intro hlt
      have hnle : ¬ (rate * (now - s.recording_start_time) / 1000
          ≤ s.total_generated_samples) := Nat.not_le.mpr hlt
      simp [system_get_buffer, hne, hnle]
  · intro cap pf r ba n st us
    rfl
  · intro k
    rfl

/-- Witness for C5 at rate 48000, an untouched silence state and current
time 100. -/
theorem silence_synthesis_policy_witness :
    ((⟨0, 0, 0⟩ : SilenceState).recording_start_time ≤ 100) ∧
    SilencePolicy 48000 8 100 ⟨0, 0, 0⟩ false :=
  ⟨by decide, silence_synthesis_policy 48000 8 100 ⟨0, 0, 0⟩ false (by decide)⟩

/-- C10: the silence statics of each audio source are function-static and
survive stop_capture and cleanup, so an idle call during a later recording
computes its expected sample count from the start time latched by the very
first idle call of the process, per SilenceStatePersists. Hypotheses: the
first idle call happens at a nonzero tick t1 and the later call at
t2 >= t1. -/
theorem silence_state_survives_cleanup (rate blockAlign t1 t2 : Nat)
    (c : AudioSourceCtx) (h1 : 0 < t1) (h12 : t1 ≤ t2) :
    SilenceStatePersists rate blockAlign t1 t2 c := by
  unfold SilenceStatePersists
  have ht1 : t1 ≠ 0 := Nat.pos_iff_ne_zero.mp h1
  refine ⟨?_, rfl, rfl, ?_, rfl⟩
  · simp [system_get_buffer, initialSilenceState]
  · by_cases hz : rate * (t2 - t1) / 1000 = 0
    · simp [system_get_buffer, ht1, hz]
    · have hlt : 0 < rate * (t2 - t1) / 1000 := Nat.pos_iff_ne_zero.mpr hz
      simp [system_get_buffer, ht1, hz, Nat.not_le.mpr hlt]

/-- Witness for C10 with the first idle call at tick 10 and a later call,
after stop and cleanup, at tick 1000. -/
theorem silence_state_survives_cleanup_witness :
    ((0 : Nat) < 10 ∧ (10 : Nat) ≤ 1000) ∧
    SilenceStatePersists 48000 8 10 1000 ⟨false, false⟩ :=
  ⟨⟨by decide, by decide⟩,
   silence_state_survives_cleanup 48000 8 10 1000 ⟨false, false⟩ (by decide) (by decide)⟩

end MuxSweeper
